import Mathlib

/- Shallow embedding of src/app.py: a Streamlit app that reconciles three
   spreadsheet reports — bath-return ("retorno de banho"), production
   ("produção") and the WM10 demand forecast ("projeção") — into a
   per-(reference, plating-type) projection of quantities to send for plating.

   Modelling conventions:
   * Python strings are modelled as Lean `String` (sequences of Unicode code
     points, as in Python).
   * Decimal cell values are modelled exactly as rationals `ℚ`; the result of
     `pd.to_numeric(..., errors="coerce")` on a quantity cell is modelled as
     `Option ℚ` (`none` is the NaN produced by a failed coercion).
   * `np.ceil` on these exact decimals is `Int.ceil` on `ℚ`.
   * Tables are lists of typed rows; a pandas left-merge against a table with
     unique keys is a `List.find?` lookup; `groupby(...).sum()` (which sorts
     the group keys) and `sort_values` are modelled with an insertion sort. -/

/-- Python `str.upper` on one character: ASCII letters via `Char.toUpper`,
    plus the accented Latin lowercase letters of the domain vocabulary
    (Python's `upper` also maps these; Lean's `Char.toUpper` is ASCII-only). -/
def pyUpperChar (c : Char) : Char :=
  if c = 'á' then 'Á' else if c = 'à' then 'À' else if c = 'â' then 'Â'
  else if c = 'ã' then 'Ã' else if c = 'é' then 'É' else if c = 'ê' then 'Ê'
  else if c = 'í' then 'Í' else if c = 'ó' then 'Ó' else if c = 'ô' then 'Ô'
  else if c = 'õ' then 'Õ' else if c = 'ú' then 'Ú' else if c = 'ç' then 'Ç'
  else c.toUpper

/-- Python `str.upper`: uppercase every character. -/
def pyUpper (s : String) : String :=
  String.mk (s.data.map pyUpperChar)

/-- Python `str.strip` (as used by pandas `.str.strip()`): remove leading and
    trailing whitespace. -/
def pyStrip (s : String) : String :=
  String.mk (((s.data.dropWhile Char.isWhitespace).reverse.dropWhile
    Char.isWhitespace).reverse)

/-- Boolean list-prefix test (modelling a match of a pattern at one position
    of a Python string). -/
def listStartsWith : List Char → List Char → Bool
  | [], _ => true
  | _ :: _, [] => false
  | a :: as, b :: bs => a == b && listStartsWith as bs

/-- Boolean contiguous-substring test, `pat` inside `text` (Python `in`). -/
def listHasSub (pat : List Char) : List Char → Bool
  | [] => listStartsWith pat []
  | c :: cs => listStartsWith pat (c :: cs) || listHasSub pat cs

/-- Python `sub in s` on strings: substring containment. -/
def containsSub (s sub : String) : Bool :=
  listHasSub sub.data s.data

/-- src/app.py `infer_banho`: infer the plating type from the product text.
    Uppercase the text; first matching keyword wins, else "Desconhecido". -/
def infer_banho (produto : String) : String :=
  let s := pyUpper produto
  if containsSub s "OURO" then "Ouro"
  else if containsSub s "RÓDIO" || containsSub s "RODIO" then "Ródio"
  else if containsSub s "PRATA" then "Prata"
  else "Desconhecido"

/-- The literal separator `" - "` of the composite product text. -/
def sepRefChars : List Char := [' ', '-', ' ']

/-- Characters before the first occurrence of `" - "` (the whole list when the
    separator does not occur): the first element of Python
    `produto.split(" - ")`, as used by `.str.split(" - ").str[0]`. -/
def firstSegment : List Char → List Char
  | [] => []
  | c :: cs =>
    if listStartsWith sepRefChars (c :: cs) then []
    else c :: firstSegment cs

/-- src/app.py reference extraction (`preparar_retorno_ou_producao`, the
    `referencia` assignment): first `" - "`-separated segment, stripped. -/
def extractRef (produto : String) : String :=
  pyStrip (String.mk (firstSegment produto.data))

/-- The first maximal digit run of a character list (`.str.extract(r"(\d+)")`
    takes the leftmost match of a greedy digit pattern); `[]` when the text
    has no digit (the extract produces NaN). -/
def firstDigitRun : List Char → List Char
  | [] => []
  | c :: cs =>
    if c.isDigit then c :: cs.takeWhile Char.isDigit
    else firstDigitRun cs

/-- Decimal value of a digit run. -/
def digitsVal (l : List Char) : ℕ :=
  l.foldl (fun n c => 10 * n + (c.toNat - 48)) 0

/-- src/app.py numeric extraction for forecast/stock cells: value of the first
    maximal digit run, and 0 when there is none (`extract` gives NaN, then
    `to_numeric(...).fillna(0)` turns it into 0). -/
def extractNum (s : String) : ℚ :=
  (digitsVal (firstDigitRun s.data) : ℚ)

example : extractRef "FO040 - Anel Solitário" = "FO040" := by decide
example : extractRef "FO040" = "FO040" := by decide
example : infer_banho "Anel ródio e ouro" = "Ouro" := by decide
example : infer_banho "Colar Prata" = "Prata" := by decide
example : firstDigitRun "28 UN".data = ['2', '8'] := by decide
example : digitsVal ['2', '8'] = 28 := by decide
example : extractNum "UN" = 0 := by
  have h : digitsVal (firstDigitRun "UN".data) = 0 := by decide
  simp [extractNum, h]

/-- A row of a movement table (RETORNO or PRODUÇÃO) after the required
    columns `Produto`, `Categoria`, `A Produzir` were checked present.
    `aProduzir` holds the `pd.to_numeric(..., errors="coerce")` value of the
    quantity cell (`none` = coercion failed / NaN). -/
structure MovRow where
  produto : String
  categoria : String
  aProduzir : Option ℚ
deriving DecidableEq

/-- A row of an aggregated movement table: one row per (referencia, banho)
    key with the summed quantity. -/
structure AggRow where
  referencia : String
  banho : String
  qtd : ℚ
deriving DecidableEq

/-- Strict lexicographic order on character lists by code point (Python
    string `<`, the order pandas uses when sorting string keys). -/
def lexLt : List Char → List Char → Bool
  | [], [] => false
  | [], _ :: _ => true
  | _ :: _, [] => false
  | a :: as, b :: bs =>
    if a < b then true else if b < a then false else lexLt as bs

/-- Python string `<`. -/
def strLtB (a b : String) : Bool :=
  lexLt a.data b.data

/-- Insert into a list sorted by `le`. -/
def insertLe {α : Type} (le : α → α → Bool) (x : α) : List α → List α
  | [] => [x]
  | y :: ys => if le x y then x :: y :: ys else y :: insertLe le x ys

/-- Insertion sort by `le` (models the deterministic ascending orders produced
    by `groupby` and `sort_values`). -/
def sortLe {α : Type} (le : α → α → Bool) : List α → List α
  | [] => []
  | x :: xs => insertLe le x (sortLe le xs)

/-- Ascending order on (referencia, banho) group keys. -/
def keyLe (a b : String × String) : Bool :=
  strLtB a.1 b.1 || (a.1 == b.1 && (strLtB a.2 b.2 || a.2 == b.2))

/-- `groupby(["referencia", "banho"], as_index=False)["qtd"].sum()`: one row
    per distinct key (keys sorted ascending), summing the quantities. -/
def groupSum (triples : List AggRow) : List AggRow :=
  (sortLe keyLe ((triples.map (fun t => (t.referencia, t.banho))).dedup)).map
    (fun k =>
      { referencia := k.1, banho := k.2,
        qtd := ((triples.filter
          (fun t => t.referencia == k.1 && t.banho == k.2)).map AggRow.qtd).sum })

/-- src/app.py `preparar_retorno_ou_producao`: derive `referencia` (first
    `" - "` segment of `Produto`, stripped), `banho` (`Categoria`, stripped)
    and `qtd` (coerced quantity, NaN as 0), then group by (referencia, banho)
    and sum. -/
def preparar_retorno_ou_producao (rows : List MovRow) : List AggRow :=
  groupSum (rows.map (fun r =>
    { referencia := extractRef r.produto,
      banho := pyStrip r.categoria,
      qtd := r.aProduzir.getD 0 }))

/-- A raw row of the WM10 forecast report after the `Referência` / `Produto`
    columns were checked present: `referencia` is the `Referência` cell
    (`none` = NaN), `previsao` and `estoque` the decorated text of the
    forecast and stock cells. -/
structure ProjRow where
  referencia : Option String
  produto : String
  previsao : String
  estoque : String
deriving DecidableEq

/-- The WM10 forecast table; `hasEstoque` records whether a column starting
    with "Estoque Atual" was found. -/
structure ProjTable where
  hasEstoque : Bool
  rows : List ProjRow
deriving DecidableEq

/-- The row filter of `preparar_projecao`: drop NaN references, the literal
    header value, and footer/total rows (case-insensitive "Totais"/"Previs"
    substring). -/
def linhaValida (r : ProjRow) : Bool :=
  match r.referencia with
  | none => false
  | some ref =>
    ref != "Referência" &&
      !(containsSub (pyUpper ref) "TOTAIS" || containsSub (pyUpper ref) "PREVIS")

/-- A row of the prepared forecast base. -/
structure BaseProjRow where
  referencia : String
  banho : String
  qtd_projetada : ℚ
  qtd_estoque : ℚ
deriving DecidableEq

/-- src/app.py `preparar_projecao`: filter footer/header/NaN rows, strip the
    reference, infer the plating type from `Produto`, extract the numeric
    forecast, and extract the numeric stock when the stock column exists
    (otherwise 0). -/
def preparar_projecao (t : ProjTable) : List BaseProjRow :=
  (t.rows.filter linhaValida).map (fun r =>
    { referencia := pyStrip (r.referencia.getD ""),
      banho := infer_banho r.produto,
      qtd_projetada := extractNum r.previsao,
      qtd_estoque := if t.hasEstoque then extractNum r.estoque else 0 })

/-- A row of the reconciled (merged) table, with the computed columns. -/
structure MergeRow where
  referencia : String
  banho : String
  qtd_projetada : ℚ
  qtd_estoque : ℚ
  qtd_producao : ℚ
  qtd_retorno : ℚ
  qtd_ja_coberta : ℚ
  qtd_a_enviar_margem : ℤ
deriving DecidableEq

/-- Left-merge lookup into an aggregated movement table by the
    (referencia, banho) key (the aggregated tables have unique keys). -/
def lookupQtd (base : List AggRow) (ref banho : String) : Option ℚ :=
  (base.find? (fun a => a.referencia == ref && a.banho == banho)).map AggRow.qtd

/-- One merged output row of src/app.py lines 297-323: left-join quantities
    (missing match and NaN as 0), covered quantity, clamped base, and the
    30%-margin quantity rounded up (`np.ceil(base * 1.3).astype(int)`). -/
def merge_row (producao retorno : List AggRow) (b : BaseProjRow) : MergeRow :=
  let qtd_producao := (lookupQtd producao b.referencia b.banho).getD 0
  let qtd_retorno := (lookupQtd retorno b.referencia b.banho).getD 0
  let qtd_ja_coberta := qtd_producao + qtd_retorno + b.qtd_estoque
  let qtd_a_enviar_base := max 0 (b.qtd_projetada - qtd_ja_coberta)
  { referencia := b.referencia, banho := b.banho,
    qtd_projetada := b.qtd_projetada, qtd_estoque := b.qtd_estoque,
    qtd_producao := qtd_producao, qtd_retorno := qtd_retorno,
    qtd_ja_coberta := qtd_ja_coberta,
    qtd_a_enviar_margem := Int.ceil (qtd_a_enviar_base * (13 / 10 : ℚ)) }

/-- The merged table `df_merge` with all computed columns (src/app.py lines
    297-323), before the zero-to-send filter and the final sort. -/
def df_merge (proj : ProjTable) (producao retorno : List MovRow) : List MergeRow :=
  (preparar_projecao proj).map
    (merge_row (preparar_retorno_ou_producao producao)
      (preparar_retorno_ou_producao retorno))

/-- Ascending order by (banho, referencia), the final `sort_values` keys. -/
def rowLe (a b : MergeRow) : Bool :=
  strLtB a.banho b.banho ||
    (a.banho == b.banho && (strLtB a.referencia b.referencia || a.referencia == b.referencia))

/-- The full reconciliation of src/app.py lines 288-329: merge, compute,
    keep only rows with a positive quantity to send, sort by
    (banho, referencia). -/
def reconcile_code (proj : ProjTable) (producao retorno : List MovRow) : List MergeRow :=
  sortLe rowLe ((df_merge proj producao retorno).filter
    (fun m => 0 < m.qtd_a_enviar_margem))

/-- Modelled from the spec: the configuration surface of §6 (the repository
    source under src/ hard-codes one variant; the other variants the spec
    describes are not in src/). `margin` is the safety-margin multiplier,
    `track_stock` whether stock participates in coverage, `key_with_banho`
    whether the join key is (reference, plating_type) or reference alone,
    `filter_zero` whether zero-to-send rows are dropped. -/
structure Config where
  margin : ℚ
  track_stock : Bool
  key_with_banho : Bool
  filter_zero : Bool
deriving DecidableEq

/-- Modelled from the spec (§4.3): the aggregator, grouping movement rows by
    the active key and summing coerced quantities. In reference-only mode the
    plating component of the key collapses (modelled as the empty string). -/
def aggregate_spec (withBanho : Bool) (rows : List MovRow) : List AggRow :=
  groupSum (rows.map (fun r =>
    { referencia := extractRef r.produto,
      banho := if withBanho then pyStrip r.categoria else "",
      qtd := r.aProduzir.getD 0 }))

/-- Modelled from the spec (§4.5): the left-join lookup by the active key
    (reference alone, or reference plus plating type). -/
def lookup_spec (withBanho : Bool) (base : List AggRow) (ref banho : String) :
    Option ℚ :=
  (base.find? (fun a => a.referencia == ref && (!withBanho || a.banho == banho))).map
    AggRow.qtd

/-- Modelled from the spec (§4.5): one reconciled row,
    `covered = production + return + stock` (stock 0 when not tracked),
    `to_send = ceil(max(0, forecast - covered) * (1 + margin))`. -/
def merge_row_spec (cfg : Config) (producao retorno : List AggRow)
    (b : BaseProjRow) : MergeRow :=
  let qtd_producao := (lookup_spec cfg.key_with_banho producao b.referencia b.banho).getD 0
  let qtd_retorno := (lookup_spec cfg.key_with_banho retorno b.referencia b.banho).getD 0
  let qtd_ja_coberta := qtd_producao + qtd_retorno +
    (if cfg.track_stock then b.qtd_estoque else 0)
  let qtd_a_enviar_base := max 0 (b.qtd_projetada - qtd_ja_coberta)
  { referencia := b.referencia, banho := b.banho,
    qtd_projetada := b.qtd_projetada, qtd_estoque := b.qtd_estoque,
    qtd_producao := qtd_producao, qtd_retorno := qtd_retorno,
    qtd_ja_coberta := qtd_ja_coberta,
    qtd_a_enviar_margem := Int.ceil (qtd_a_enviar_base * (1 + cfg.margin)) }

/-- Modelled from the spec (§4.5): the merged reconciled table before
    filtering and sorting. -/
def df_merge_spec (cfg : Config) (proj : ProjTable) (producao retorno : List MovRow) :
    List MergeRow :=
  (preparar_projecao proj).map
    (merge_row_spec cfg (aggregate_spec cfg.key_with_banho producao)
      (aggregate_spec cfg.key_with_banho retorno))

/-- Ascending order by referencia alone (spec reference-only key mode). -/
def rowLeRefOnly (a b : MergeRow) : Bool :=
  strLtB a.referencia b.referencia || a.referencia == b.referencia

/-- Modelled from the spec (§4.5): the parameterized reconciler: left-join
    and compute per `merge_row_spec`, drop rows with `to_send = 0` when
    `filter_zero` is set, sort by the active key. -/
def reconcile_spec (cfg : Config) (proj : ProjTable) (producao retorno : List MovRow) :
    List MergeRow :=
  let merged := df_merge_spec cfg proj producao retorno
  let kept := if cfg.filter_zero then
      merged.filter (fun m => m.qtd_a_enviar_margem ≠ 0)
    else merged
  sortLe (if cfg.key_with_banho then rowLe else rowLeRefOnly) kept

/-- The configuration hard-coded by src/app.py: 30% margin, stock tracked,
    join on (referencia, banho), zero-to-send rows dropped. -/
def hardCfg : Config :=
  { margin := 3 / 10, track_stock := true, key_with_banho := true,
    filter_zero := true }

/-- Forecast fixture: two rows, "A"/gold with forecast 10 and stock 0,
    "B"/silver with forecast 11 and stock 2. -/
def exProj : ProjTable :=
  { hasEstoque := true,
    rows := [
      { referencia := some "A", produto := "Anel Ouro",
        previsao := "10 UN", estoque := "0 UN" },
      { referencia := some "B", produto := "Colar Prata",
        previsao := "11 UN", estoque := "2 UN" }] }

/-- Production fixture: 5 units of "B"/silver. -/
def exProducao : List MovRow :=
  [{ produto := "B - Colar Prata", categoria := "Prata", aProduzir := some 5 }]

/-- Return fixture: 1 unit of "B"/silver. -/
def exRetorno : List MovRow :=
  [{ produto := "B - Colar Prata", categoria := "Prata", aProduzir := some 1 }]

/-- Expected reconciled row for "A": nothing covered, base 10,
    `ceil(10 * 1.3) = 13`. -/
def exRowA : MergeRow :=
  { referencia := "A", banho := "Ouro", qtd_projetada := 10, qtd_estoque := 0,
    qtd_producao := 0, qtd_retorno := 0, qtd_ja_coberta := 0,
    qtd_a_enviar_margem := 13 }

/-- Expected reconciled row for "B": covered 5 + 1 + 2 = 8, base 3,
    `ceil(3 * 1.3) = ceil(3.9) = 4`. -/
def exRowB : MergeRow :=
  { referencia := "B", banho := "Prata", qtd_projetada := 11, qtd_estoque := 2,
    qtd_producao := 5, qtd_retorno := 1, qtd_ja_coberta := 8,
    qtd_a_enviar_margem := 4 }

/-- Projection stage evaluated on the fixture. -/
lemma proj_eval : preparar_projecao exProj =
    [{ referencia := "A", banho := "Ouro", qtd_projetada := 10, qtd_estoque := 0 },
     { referencia := "B", banho := "Prata", qtd_projetada := 11, qtd_estoque := 2 }] := by
  decide

/-- Production aggregation evaluated on the fixture. -/
lemma aggP_eval : preparar_retorno_ou_producao exProducao =
    [{ referencia := "B", banho := "Prata", qtd := 5 }] := by
  have h1 : extractRef "B - Colar Prata" = "B" := by decide
  have h2 : pyStrip "Prata" = "Prata" := by decide
  simp [preparar_retorno_ou_producao, exProducao, groupSum, sortLe, insertLe,
    List.dedup_cons_of_not_mem, h1, h2]

/-- Return aggregation evaluated on the fixture. -/
lemma aggR_eval : preparar_retorno_ou_producao exRetorno =
    [{ referencia := "B", banho := "Prata", qtd := 1 }] := by
  have h1 : extractRef "B - Colar Prata" = "B" := by decide
  have h2 : pyStrip "Prata" = "Prata" := by decide
  simp [preparar_retorno_ou_producao, exRetorno, groupSum, sortLe, insertLe,
    List.dedup_cons_of_not_mem, h1, h2]

/-- Convenience: evaluate a ceiling of a concrete nonnegative product. -/
lemma ceil_39_10 : Int.ceil ((39 : ℚ) / 10) = 4 := by
  rw [Int.ceil_eq_iff]
  constructor
  · norm_num
  · norm_num

/-- Merge-row evaluation for the unmatched fixture row "A". -/
lemma mergeA_eval :
    merge_row [{ referencia := "B", banho := "Prata", qtd := 5 }]
      [{ referencia := "B", banho := "Prata", qtd := 1 }]
      { referencia := "A", banho := "Ouro", qtd_projetada := 10, qtd_estoque := 0 } =
      exRowA := by
  have hmax : max (0 : ℚ) (10 - (0 + 0 + 0)) = 10 := by norm_num
  have hceil : Int.ceil ((10 : ℚ) * (13 / 10)) = 13 := by
    rw [show (10 : ℚ) * (13 / 10) = 13 by norm_num]
    exact_mod_cast Int.ceil_intCast 13
  simp [merge_row, lookupQtd, exRowA, hmax, hceil]

/-- Merge-row evaluation for the matched fixture row "B". -/
lemma mergeB_eval :
    merge_row [{ referencia := "B", banho := "Prata", qtd := 5 }]
      [{ referencia := "B", banho := "Prata", qtd := 1 }]
      { referencia := "B", banho := "Prata", qtd_projetada := 11, qtd_estoque := 2 } =
      exRowB := by
  have hmax : max (0 : ℚ) (11 - (5 + 1 + 2)) = 3 := by norm_num
  have hceil : Int.ceil ((3 : ℚ) * (13 / 10)) = 4 := by
    rw [show (3 : ℚ) * (13 / 10) = 39 / 10 by norm_num]
    exact ceil_39_10
  simp [merge_row, lookupQtd, exRowB, hmax, hceil]
  norm_num

/-- The merged table on the fixture. -/
lemma df_merge_eval :
    df_merge exProj exProducao exRetorno = [exRowA, exRowB] := by
  unfold df_merge
  rw [proj_eval, aggP_eval, aggR_eval]
  simp [mergeA_eval, mergeB_eval]

/-- The full reconciliation on the fixture. -/
lemma reconcile_ex_eval :
    reconcile_code exProj exProducao exRetorno = [exRowA, exRowB] := by
  unfold reconcile_code
  rw [df_merge_eval]
  have hA : (0 : ℤ) < exRowA.qtd_a_enviar_margem := by decide
  have hB : (0 : ℤ) < exRowB.qtd_a_enviar_margem := by decide
  have hle : rowLe exRowA exRowB = true := by decide
  simp [sortLe, insertLe, hA, hB, hle]

/-- Membership in an insertion is membership in the inserted element or the
    original list. -/
lemma mem_insertLe {α : Type} (le : α → α → Bool) (x : α) (l : List α) (a : α) :
    a ∈ insertLe le x l ↔ a = x ∨ a ∈ l := by
  induction l with
  | nil => simp [insertLe]
  | cons y ys ih =>
    by_cases h : le x y = true
    · simp [insertLe, h]
    · simp [insertLe, h, ih]
      tauto

/-- Sorting does not change membership. -/
lemma mem_sortLe {α : Type} (le : α → α → Bool) (l : List α) (a : α) :
    a ∈ sortLe le l ↔ a ∈ l := by
  induction l with
  | nil => simp [sortLe]
  | cons x xs ih => simp [sortLe, mem_insertLe, ih]

/-- C1: For every reconciled output row, the covered quantity equals
    production + return + stock, and the quantity to send is the ceiling of
    `max 0 (forecast - covered)` inflated by the 30% margin. -/
theorem c1_covered_and_margin (proj : ProjTable) (producao retorno : List MovRow)
    (r : MergeRow) (hr : r ∈ reconcile_code proj producao retorno) :
    r.qtd_ja_coberta = r.qtd_producao + r.qtd_retorno + r.qtd_estoque ∧
    r.qtd_a_enviar_margem =
      Int.ceil ((max 0 (r.qtd_projetada - r.qtd_ja_coberta)) * (13 / 10 : ℚ)) := by
  rw [reconcile_code, mem_sortLe] at hr
  have hr2 : r ∈ df_merge proj producao retorno := List.mem_of_mem_filter hr
  rw [df_merge, List.mem_map] at hr2
  obtain ⟨b, _, rfl⟩ := hr2
  exact ⟨rfl, rfl⟩

/-- C1 witness: on the fixture, row "A" (forecast 10, covered 0) is sent with
    quantity 13 and row "B" (forecast 11, covered 8) with quantity 4, and both
    satisfy the covered/margin equations. -/
theorem c1_witness :
    (exRowA ∈ reconcile_code exProj exProducao exRetorno ∧
      exRowB ∈ reconcile_code exProj exProducao exRetorno ∧
      exRowA.qtd_a_enviar_margem = 13 ∧ exRowB.qtd_a_enviar_margem = 4) ∧
    ((exRowA.qtd_ja_coberta = exRowA.qtd_producao + exRowA.qtd_retorno + exRowA.qtd_estoque ∧
      exRowA.qtd_a_enviar_margem =
        Int.ceil ((max 0 (exRowA.qtd_projetada - exRowA.qtd_ja_coberta)) * (13 / 10 : ℚ))) ∧
     (exRowB.qtd_ja_coberta = exRowB.qtd_producao + exRowB.qtd_retorno + exRowB.qtd_estoque ∧
      exRowB.qtd_a_enviar_margem =
        Int.ceil ((max 0 (exRowB.qtd_projetada - exRowB.qtd_ja_coberta)) * (13 / 10 : ℚ)))) := by
  have hA : exRowA ∈ reconcile_code exProj exProducao exRetorno := by
    rw [reconcile_ex_eval]; simp
  have hB : exRowB ∈ reconcile_code exProj exProducao exRetorno := by
    rw [reconcile_ex_eval]; simp
  exact ⟨⟨hA, hB, by decide, by decide⟩,
    c1_covered_and_margin exProj exProducao exRetorno exRowA hA,
    c1_covered_and_margin exProj exProducao exRetorno exRowB hB⟩

/-- C8: reconciliation is deterministic — equal inputs give equal outputs
    (the embedding of the computation is a pure function of the three
    tables; the source has no hidden state, randomness or time dependence). -/
theorem c8_deterministic (p1 p2 : ProjTable) (a1 a2 b1 b2 : List MovRow)
    (hp : p1 = p2) (ha : a1 = a2) (hb : b1 = b2) :
    reconcile_code p1 a1 b1 = reconcile_code p2 a2 b2 := by
  subst hp; subst ha; subst hb; rfl

/-- C8 witness: two runs on the fixture give the same output table. -/
theorem c8_witness :
    exProj = exProj ∧
    reconcile_code exProj exProducao exRetorno =
      reconcile_code exProj exProducao exRetorno :=
  ⟨rfl, c8_deterministic exProj exProj exProducao exProducao exRetorno exRetorno
    rfl rfl rfl⟩

/-- `infer_banho` always produces one of the four labels. -/
lemma infer_banho_cases (p : String) :
    infer_banho p = "Ouro" ∨ infer_banho p = "Ródio" ∨ infer_banho p = "Prata" ∨
      infer_banho p = "Desconhecido" := by
  simp only [infer_banho]
  split_ifs <;> simp

/-- C10: every reconciled output row carries a plating type produced by the
    inference over the forecast's product text, hence one of the four labels;
    movement-table category values never introduce an output key. -/
theorem c10_output_banho_labels (proj : ProjTable) (producao retorno : List MovRow)
    (r : MergeRow) (hr : r ∈ reconcile_code proj producao retorno) :
    r.banho = "Ouro" ∨ r.banho = "Ródio" ∨ r.banho = "Prata" ∨
      r.banho = "Desconhecido" := by
  rw [reconcile_code, mem_sortLe] at hr
  have hr2 : r ∈ df_merge proj producao retorno := List.mem_of_mem_filter hr
  rw [df_merge, List.mem_map] at hr2
  obtain ⟨b, hb, rfl⟩ := hr2
  rw [preparar_projecao, List.mem_map] at hb
  obtain ⟨p, _, rfl⟩ := hb
  exact infer_banho_cases p.produto

/-- C10 witness: the fixture's gold row is in the output and its label is one
    of the four. -/
theorem c10_witness :
    exRowA ∈ reconcile_code exProj exProducao exRetorno ∧
    (exRowA.banho = "Ouro" ∨ exRowA.banho = "Ródio" ∨ exRowA.banho = "Prata" ∨
      exRowA.banho = "Desconhecido") := by
  have hA : exRowA ∈ reconcile_code exProj exProducao exRetorno := by
    rw [reconcile_ex_eval]; simp
  exact ⟨hA, c10_output_banho_labels exProj exProducao exRetorno exRowA hA⟩

/-- C3: plating-type inference maps any product text to exactly one of the
    four labels, by first-match-wins order over the uppercased text (gold,
    then rhodium with or without the accent, then silver, else unknown); a
    text containing both "OURO" and "RÓDIO" resolves to "Ouro". -/
theorem c3_infer_banho_first_match :
    (∀ p : String,
      (infer_banho p = "Ouro" ∨ infer_banho p = "Ródio" ∨
        infer_banho p = "Prata" ∨ infer_banho p = "Desconhecido") ∧
      (infer_banho p = "Ouro" ↔ containsSub (pyUpper p) "OURO" = true) ∧
      (infer_banho p = "Ródio" ↔
        (containsSub (pyUpper p) "OURO" = false ∧
          (containsSub (pyUpper p) "RÓDIO" = true ∨
            containsSub (pyUpper p) "RODIO" = true))) ∧
      (infer_banho p = "Prata" ↔
        (containsSub (pyUpper p) "OURO" = false ∧
          containsSub (pyUpper p) "RÓDIO" = false ∧
          containsSub (pyUpper p) "RODIO" = false ∧
          containsSub (pyUpper p) "PRATA" = true)) ∧
      (infer_banho p = "Desconhecido" ↔
        (containsSub (pyUpper p) "OURO" = false ∧
          containsSub (pyUpper p) "RÓDIO" = false ∧
          containsSub (pyUpper p) "RODIO" = false ∧
          containsSub (pyUpper p) "PRATA" = false))) ∧
    infer_banho "Pulseira banho OURO com detalhe RÓDIO" = "Ouro" := by
  constructor
  · intro p
    refine ⟨infer_banho_cases p, ?_⟩
    cases h1 : containsSub (pyUpper p) "OURO" with
    | true => simp [infer_banho, h1]
    | false =>
      cases h2 : containsSub (pyUpper p) "RÓDIO" with
      | true => simp [infer_banho, h1, h2]
      | false =>
        cases h3 : containsSub (pyUpper p) "RODIO" with
        | true => simp [infer_banho, h1, h2, h3]
        | false =>
          cases h4 : containsSub (pyUpper p) "PRATA" with
          | true => simp [infer_banho, h1, h2, h3, h4]
          | false => simp [infer_banho, h1, h2, h3, h4]
  · decide

/-- C6: a forecast row whose (referencia, banho) key matches no aggregated
    production row and no aggregated return row still yields a merged row
    (no error), with production and return quantities filled with 0. -/
theorem c6_unmatched_fills_zero (proj : ProjTable) (producao retorno : List MovRow)
    (b : BaseProjRow) (hb : b ∈ preparar_projecao proj)
    (hp : ∀ a ∈ preparar_retorno_ou_producao producao,
      ¬(a.referencia = b.referencia ∧ a.banho = b.banho))
    (hr : ∀ a ∈ preparar_retorno_ou_producao retorno,
      ¬(a.referencia = b.referencia ∧ a.banho = b.banho)) :
    ∃ m ∈ df_merge proj producao retorno,
      m.referencia = b.referencia ∧ m.banho = b.banho ∧
      m.qtd_producao = 0 ∧ m.qtd_retorno = 0 := by
  have hfind : ∀ base : List AggRow,
      (∀ a ∈ base, ¬(a.referencia = b.referencia ∧ a.banho = b.banho)) →
      lookupQtd base b.referencia b.banho = none := by
    intro base h
    rw [lookupQtd]
    have hnone : List.find?
        (fun a => a.referencia == b.referencia && a.banho == b.banho) base = none := by
      rw [List.find?_eq_none]
      intro a ha hcon
      simp only [Bool.and_eq_true, beq_iff_eq] at hcon
      exact h a ha hcon
    rw [hnone]
    rfl
  refine ⟨merge_row (preparar_retorno_ou_producao producao)
      (preparar_retorno_ou_producao retorno) b,
    List.mem_map_of_mem _ hb, rfl, rfl, ?_, ?_⟩
  · show (lookupQtd (preparar_retorno_ou_producao producao)
        b.referencia b.banho).getD 0 = 0
    rw [hfind _ hp]
    rfl
  · show (lookupQtd (preparar_retorno_ou_producao retorno)
        b.referencia b.banho).getD 0 = 0
    rw [hfind _ hr]
    rfl

/-- The prepared forecast row for fixture reference "A". -/
def exBaseA : BaseProjRow :=
  { referencia := "A", banho := "Ouro", qtd_projetada := 10, qtd_estoque := 0 }

/-- C6 witness: the fixture's "A"/gold forecast row matches neither movement
    table, and the merged table holds a corresponding row with production and
    return quantities 0. -/
theorem c6_witness :
    exBaseA ∈ preparar_projecao exProj ∧
    (∃ m ∈ df_merge exProj exProducao exRetorno,
      m.referencia = exBaseA.referencia ∧ m.banho = exBaseA.banho ∧
      m.qtd_producao = 0 ∧ m.qtd_retorno = 0) := by
  have hb : exBaseA ∈ preparar_projecao exProj := by
    rw [proj_eval]; simp [exBaseA]
  refine ⟨hb, ?_⟩
  have hp : ∀ a ∈ preparar_retorno_ou_producao exProducao,
      ¬(a.referencia = exBaseA.referencia ∧ a.banho = exBaseA.banho) := by
    rw [aggP_eval]; simp [exBaseA]
  have hr : ∀ a ∈ preparar_retorno_ou_producao exRetorno,
      ¬(a.referencia = exBaseA.referencia ∧ a.banho = exBaseA.banho) := by
    rw [aggR_eval]; simp [exBaseA]
  exact c6_unmatched_fills_zero exProj exProducao exRetorno exBaseA hb hp hr

/-- A list is a Boolean prefix of itself extended by anything. -/
lemma listStartsWith_self_append (l t : List Char) :
    listStartsWith l (l ++ t) = true := by
  induction l with
  | nil => rfl
  | cons c cs ih => simp [listStartsWith, ih]

/-- When the separator occurs nowhere, `firstSegment` keeps the whole list. -/
lemma firstSegment_of_no_sep (l : List Char)
    (h : listHasSub sepRefChars l = false) : firstSegment l = l := by
  induction l with
  | nil => rfl
  | cons c cs ih =>
    rw [listHasSub] at h
    simp only [Bool.or_eq_false_iff] at h
    rw [firstSegment, if_neg (by simp [h.1]), ih h.2]

/-- When the separator's first occurrence starts right after `pre`,
    `firstSegment` returns exactly `pre`. -/
lemma firstSegment_first_occurrence (pre post : List Char)
    (h : ∀ i, i < pre.length →
      listStartsWith sepRefChars ((pre ++ sepRefChars ++ post).drop i) = false) :
    firstSegment (pre ++ sepRefChars ++ post) = pre := by
  induction pre with
  | nil =>
    simp only [List.nil_append]
    rw [show sepRefChars ++ post = ' ' :: ('-' :: ' ' :: post) from rfl]
    rw [firstSegment, if_pos]
    exact listStartsWith_self_append sepRefChars post
  | cons c pre' ih =>
    have h0 := h 0 (by simp)
    simp only [List.drop_zero] at h0
    simp only [List.cons_append] at h0 ⊢
    rw [firstSegment, if_neg (by simpa using h0)]
    have h' : ∀ i, i < pre'.length →
        listStartsWith sepRefChars ((pre' ++ sepRefChars ++ post).drop i) = false := by
      intro i hi
      have := h (i + 1) (by simpa using Nat.succ_lt_succ hi)
      simpa [List.cons_append] using this
    rw [ih h']

/-- C4: reference extraction splits on the literal `" - "`, takes the first
    segment and strips it; with no separator anywhere (including empty text)
    it returns the whole stripped string — it is total, never an error. -/
theorem c4_extract_reference (s : String) :
    (listHasSub sepRefChars s.data = false → extractRef s = pyStrip s) ∧
    (∀ pre post : List Char, s.data = pre ++ sepRefChars ++ post →
      (∀ i, i < pre.length →
        listStartsWith sepRefChars (s.data.drop i) = false) →
      extractRef s = pyStrip (String.mk pre)) := by
  constructor
  · intro h
    rw [extractRef, firstSegment_of_no_sep s.data h]
  · intro pre post hdec h
    rw [extractRef, hdec, firstSegment_first_occurrence pre post (hdec ▸ h)]

/-- C4 witness: `"FO040 - Anel Solitário"` yields `"FO040"`, and `"FO040"`
    (no separator) yields the whole string. -/
theorem c4_witness :
    extractRef "FO040 - Anel Solitário" = "FO040" ∧
    extractRef "FO040" = "FO040" := by
  constructor
  · have h := (c4_extract_reference "FO040 - Anel Solitário").2
      "FO040".data "Anel Solitário".data (by decide) (by decide)
    rw [h]
    decide
  · have h := (c4_extract_reference "FO040").1 (by decide)
    rw [h]
    decide

/-- With no digit anywhere, the first digit run is empty. -/
lemma firstDigitRun_of_no_digit (l : List Char)
    (h : ∀ c ∈ l, c.isDigit = false) : firstDigitRun l = [] := by
  induction l with
  | nil => rfl
  | cons c cs ih =>
    rw [firstDigitRun, if_neg (by simp [h c (by simp)])]
    exact ih (fun x hx => h x (by simp [hx]))

/-- `takeWhile isDigit` over an all-digit block followed by a non-digit (or
    nothing) returns exactly the block. -/
lemma takeWhile_digit_block (run post : List Char)
    (hrun : ∀ c ∈ run, c.isDigit = true)
    (hpost : ∀ c, post.head? = some c → c.isDigit = false) :
    (run ++ post).takeWhile Char.isDigit = run := by
  induction run with
  | nil =>
    cases post with
    | nil => rfl
    | cons d ds =>
      have hd := hpost d rfl
      simp [List.takeWhile_cons, hd]
  | cons c cs ih =>
    have hc := hrun c (by simp)
    simp only [List.cons_append, List.takeWhile_cons, hc, if_true]
    rw [ih (fun x hx => hrun x (by simp [hx]))]

/-- A decomposition into a digit-free prefix, a nonempty all-digit run and a
    tail not starting with a digit identifies the first maximal digit run. -/
lemma firstDigitRun_decomp (pre run post : List Char)
    (hpre : ∀ c ∈ pre, c.isDigit = false) (hne : run ≠ [])
    (hrun : ∀ c ∈ run, c.isDigit = true)
    (hpost : ∀ c, post.head? = some c → c.isDigit = false) :
    firstDigitRun (pre ++ run ++ post) = run := by
  induction pre with
  | nil =>
    cases run with
    | nil => exact absurd rfl hne
    | cons d ds =>
      have hd := hrun d (by simp)
      simp only [List.nil_append, List.cons_append]
      rw [firstDigitRun, if_pos (by simp [hd])]
      rw [takeWhile_digit_block ds post (fun x hx => hrun x (by simp [hx])) hpost]
  | cons c pre' ih =>
    have hc := hpre c (by simp)
    simp only [List.cons_append]
    rw [firstDigitRun, if_neg (by simp [hc])]
    exact ih (fun x hx => hpre x (by simp [hx]))

/-- C5: numeric extraction takes the first maximal digit run of the cell text
    and its decimal value, and yields 0 when the text has no digit. -/
theorem c5_numeric_extraction (s : String) :
    ((∀ c ∈ s.data, c.isDigit = false) → extractNum s = 0) ∧
    (∀ pre run post : List Char, s.data = pre ++ run ++ post →
      (∀ c ∈ pre, c.isDigit = false) → run ≠ [] →
      (∀ c ∈ run, c.isDigit = true) →
      (∀ c, post.head? = some c → c.isDigit = false) →
      extractNum s = (digitsVal run : ℚ)) := by
  constructor
  · intro h
    rw [extractNum, firstDigitRun_of_no_digit s.data h]
    simp [digitsVal]
  · intro pre run post hdec hpre hne hrun hpost
    rw [extractNum, hdec, firstDigitRun_decomp pre run post hpre hne hrun hpost]

/-- C5 witness: `"28 UN"` yields 28 and `"UN"` (no digits) yields 0. -/
theorem c5_witness : extractNum "28 UN" = 28 ∧ extractNum "UN" = 0 := by
  constructor
  · have h := (c5_numeric_extraction "28 UN").2 [] ['2', '8'] [' ', 'U', 'N']
      (by decide) (by decide) (by decide) (by decide) (by decide)
    rw [h, show digitsVal ['2', '8'] = 28 from by decide]
    norm_num
  · exact (c5_numeric_extraction "UN").1 (by decide)

/-- A movement table whose quantity cell holds a negative number. -/
def cexMov : List MovRow :=
  [{ produto := "X - Peça", categoria := "Ouro", aProduzir := some (-5) }]

/-- C2 counterexample: on an input table with the required columns whose
    quantity cell coerces to -5, the aggregated output row has a negative
    quantity — the claim `quantity ≥ 0` fails as stated. -/
theorem c2_counterexample :
    ∃ a ∈ preparar_retorno_ou_producao cexMov, a.qtd < 0 := by
  have heval : preparar_retorno_ou_producao cexMov =
      [{ referencia := "X", banho := "Ouro", qtd := -5 }] := by
    have h1 : extractRef "X - Peça" = "X" := by decide
    have h2 : pyStrip "Ouro" = "Ouro" := by decide
    simp [preparar_retorno_ou_producao, cexMov, groupSum, sortLe, insertLe,
      List.dedup_cons_of_not_mem, h1, h2]
  rw [heval]
  exact ⟨{ referencia := "X", banho := "Ouro", qtd := -5 }, by simp, by norm_num⟩

/-- C2 (amended): every aggregated movement row has quantity ≥ 0 provided
    every quantity cell of the input coerces to a non-negative number
    (non-numeric cells count as 0); the code applies no clamp of its own. -/
theorem c2_aggregated_nonneg (rows : List MovRow)
    (h : ∀ r ∈ rows, 0 ≤ r.aProduzir.getD 0) :
    ∀ a ∈ preparar_retorno_ou_producao rows, 0 ≤ a.qtd := by
  intro a ha
  rw [preparar_retorno_ou_producao, groupSum, List.mem_map] at ha
  obtain ⟨k, _, rfl⟩ := ha
  apply List.sum_nonneg
  intro x hx
  rw [List.mem_map] at hx
  obtain ⟨t, ht, rfl⟩ := hx
  have ht2 : t ∈ rows.map (fun r =>
      ({ referencia := extractRef r.produto, banho := pyStrip r.categoria,
         qtd := r.aProduzir.getD 0 } : AggRow)) := List.mem_of_mem_filter ht
  rw [List.mem_map] at ht2
  obtain ⟨r, hr, rfl⟩ := ht2
  exact h r hr

/-- C2 witness: the production fixture has non-negative quantity cells, and
    every aggregated row of it has non-negative quantity. -/
theorem c2_witness :
    (∀ r ∈ exProducao, 0 ≤ r.aProduzir.getD 0) ∧
    (∀ a ∈ preparar_retorno_ou_producao exProducao, 0 ≤ a.qtd) :=
  ⟨by decide, c2_aggregated_nonneg exProducao (by decide)⟩

/-- C7: the code's reconciled output (filtering always active in src/app.py)
    contains no row with zero quantity to send; with `filter_zero = false`
    (spec-modelled variant) a computed row with zero quantity to send stays in
    the output, with value 0. -/
theorem c7_zero_to_send_filter (proj : ProjTable) (producao retorno : List MovRow)
    (cfg : Config) :
    (∀ r ∈ reconcile_code proj producao retorno, r.qtd_a_enviar_margem ≠ 0) ∧
    (cfg.filter_zero = false →
      ∀ r ∈ df_merge_spec cfg proj producao retorno,
        r.qtd_a_enviar_margem = 0 →
        r ∈ reconcile_spec cfg proj producao retorno) := by
  constructor
  · intro r hr
    rw [reconcile_code, mem_sortLe, List.mem_filter] at hr
    have h2 := hr.2
    simp only [decide_eq_true_eq] at h2
    omega
  · intro hf r hr _
    simp only [reconcile_spec, hf, Bool.false_eq_true, if_false, mem_sortLe]
    exact hr

/-- Forecast fixture with a fully covered row: forecast 5, stock 9. -/
def exProjC : ProjTable :=
  { hasEstoque := true,
    rows := [
      { referencia := some "C", produto := "Brinco Ouro",
        previsao := "5 UN", estoque := "9 UN" }] }

/-- The spec-modelled configuration with zero-to-send filtering off. -/
def cfgOff : Config :=
  { margin := 3 / 10, track_stock := true, key_with_banho := true,
    filter_zero := false }

/-- Fully covered row: base `max 0 (5 - 9) = 0`, so 0 to send. -/
def exRowC : MergeRow :=
  { referencia := "C", banho := "Ouro", qtd_projetada := 5, qtd_estoque := 9,
    qtd_producao := 0, qtd_retorno := 0, qtd_ja_coberta := 9,
    qtd_a_enviar_margem := 0 }

/-- Merged-table evaluation for the covered fixture with filtering off. -/
lemma dfms_off_eval : df_merge_spec cfgOff exProjC [] [] = [exRowC] := by
  have hproj : preparar_projecao exProjC =
      [{ referencia := "C", banho := "Ouro", qtd_projetada := 5,
         qtd_estoque := 9 }] := by decide
  have hmax : max (0 : ℚ) (5 - (0 + 0 + 9)) = 0 := by norm_num
  unfold df_merge_spec
  rw [hproj]
  simp [aggregate_spec, groupSum, sortLe, merge_row_spec, lookup_spec, cfgOff,
    exRowC, hmax]
  rw [show ((0 : ℚ) ⊔ (5 - 9)) = 0 from by norm_num]
  norm_num

/-- C7 witness: on the fixtures, the code output's row "A" has nonzero
    quantity to send, and with filtering off the zero-to-send row "C" stays in
    the output. -/
theorem c7_witness :
    exRowA.qtd_a_enviar_margem ≠ 0 ∧
    exRowC ∈ reconcile_spec cfgOff exProjC [] [] := by
  constructor
  · exact (c7_zero_to_send_filter exProj exProducao exRetorno cfgOff).1 exRowA
      (by rw [reconcile_ex_eval]; simp)
  · exact (c7_zero_to_send_filter exProjC [] [] cfgOff).2 rfl exRowC
      (by rw [dfms_off_eval]; simp) (by decide)

/-- At the hard-coded configuration the spec merge row is the code merge
    row (`1 + 0.3 = 1.3`). -/
lemma merge_row_spec_hard (P R : List AggRow) (b : BaseProjRow) :
    merge_row_spec hardCfg P R b = merge_row P R b := by
  have hm : (1 + (3 : ℚ) / 10) = 13 / 10 := by norm_num
  simp only [merge_row_spec, merge_row, lookup_spec, lookupQtd, hardCfg,
    Bool.not_true, Bool.false_or, if_true, hm]

/-- At the hard-coded configuration the spec merged table is the code merged
    table. -/
lemma df_merge_spec_hard (proj : ProjTable) (producao retorno : List MovRow) :
    df_merge_spec hardCfg proj producao retorno = df_merge proj producao retorno := by
  unfold df_merge_spec df_merge
  have hagg : ∀ rows : List MovRow,
      aggregate_spec hardCfg.key_with_banho rows = preparar_retorno_ou_producao rows :=
    fun _ => rfl
  rw [hagg, hagg]
  apply List.map_congr_left
  intro b _
  exact merge_row_spec_hard _ _ b

/-- Every computed quantity-to-send is non-negative (clamped base times a
    non-negative factor, rounded up). -/
lemma df_merge_margem_nonneg (proj : ProjTable) (producao retorno : List MovRow) :
    ∀ m ∈ df_merge proj producao retorno, 0 ≤ m.qtd_a_enviar_margem := by
  intro m hm
  rw [df_merge, List.mem_map] at hm
  obtain ⟨b, _, rfl⟩ := hm
  simp only [merge_row]
  apply Int.ceil_nonneg
  exact mul_nonneg (le_max_left 0 _) (by norm_num)

/-- C9 (amended): the code's reconciliation equals the spec's parameterized
    engine at exactly the fixed configuration `margin = 0.3`,
    `track_stock = true`, key (referencia, banho), zero rows filtered — the
    source hard-codes this configuration instead of exposing parameters. -/
theorem c9_engine_fixed_configuration (proj : ProjTable) (producao retorno : List MovRow) :
    reconcile_code proj producao retorno =
      reconcile_spec hardCfg proj producao retorno := by
  have hfe : (df_merge proj producao retorno).filter
        (fun m => decide (m.qtd_a_enviar_margem ≠ 0))
      = (df_merge proj producao retorno).filter
        (fun m => decide (0 < m.qtd_a_enviar_margem)) := by
    apply List.filter_congr
    intro m hm
    have h0 := df_merge_margem_nonneg proj producao retorno m hm
    exact decide_eq_decide.mpr (by omega)
  show sortLe rowLe ((df_merge proj producao retorno).filter
      (fun m => decide (0 < m.qtd_a_enviar_margem)))
    = sortLe rowLe ((df_merge_spec hardCfg proj producao retorno).filter
      (fun m => decide (m.qtd_a_enviar_margem ≠ 0)))
  rw [df_merge_spec_hard, hfe]

/-- Forecast fixture for the configuration counterexample: "A"/gold,
    forecast 10, stock 1. -/
def cexProj9 : ProjTable :=
  { hasEstoque := true,
    rows := [
      { referencia := some "A", produto := "Anel Ouro",
        previsao := "10 UN", estoque := "1 UN" }] }

/-- Production rows for the counterexample: reference "A" but category
    "Prata", so it matches on the reference-only key yet not on the
    (referencia, banho) key. -/
def cexProd9 : List MovRow :=
  [{ produto := "A - Pingente", categoria := "Prata", aProduzir := some 2 }]

/-- No return rows. -/
def cexRet9 : List MovRow := []

/-- Alternative configuration: margin 0. -/
def cfgM0 : Config :=
  { margin := 0, track_stock := true, key_with_banho := true,
    filter_zero := true }

/-- Alternative configuration: stock not tracked. -/
def cfgNoStock : Config :=
  { margin := 3 / 10, track_stock := false, key_with_banho := true,
    filter_zero := true }

/-- Alternative configuration: reference-only join key. -/
def cfgRefOnly : Config :=
  { margin := 3 / 10, track_stock := true, key_with_banho := false,
    filter_zero := true }

/-- Output row produced by the code: covered 1 (stock), base 9,
    `ceil(9 * 1.3) = 12`. -/
def cexRowHard : MergeRow :=
  { referencia := "A", banho := "Ouro", qtd_projetada := 10, qtd_estoque := 1,
    qtd_producao := 0, qtd_retorno := 0, qtd_ja_coberta := 1,
    qtd_a_enviar_margem := 12 }

/-- With margin 0 the same input yields 9 to send. -/
def cexRowM0 : MergeRow :=
  { referencia := "A", banho := "Ouro", qtd_projetada := 10, qtd_estoque := 1,
    qtd_producao := 0, qtd_retorno := 0, qtd_ja_coberta := 1,
    qtd_a_enviar_margem := 9 }

/-- With stock untracked the same input yields covered 0 and 13 to send. -/
def cexRowNoStock : MergeRow :=
  { referencia := "A", banho := "Ouro", qtd_projetada := 10, qtd_estoque := 1,
    qtd_producao := 0, qtd_retorno := 0, qtd_ja_coberta := 0,
    qtd_a_enviar_margem := 13 }

/-- With a reference-only key the production row matches: covered 3,
    `ceil(7 * 1.3) = 10` to send. -/
def cexRowRefOnly : MergeRow :=
  { referencia := "A", banho := "Ouro", qtd_projetada := 10, qtd_estoque := 1,
    qtd_producao := 2, qtd_retorno := 0, qtd_ja_coberta := 3,
    qtd_a_enviar_margem := 10 }

/-- The prepared forecast base of the counterexample fixture. -/
lemma cexProj9_eval : preparar_projecao cexProj9 =
    [{ referencia := "A", banho := "Ouro", qtd_projetada := 10,
       qtd_estoque := 1 }] := by decide

/-- The production aggregation of the counterexample fixture under the
    (referencia, banho) key. -/
lemma cexProd9_agg_eval : aggregate_spec true cexProd9 =
    [{ referencia := "A", banho := "Prata", qtd := 2 }] := by
  have h1 : extractRef "A - Pingente" = "A" := by decide
  have h2 : pyStrip "Prata" = "Prata" := by decide
  simp [aggregate_spec, cexProd9, groupSum, sortLe, insertLe,
    List.dedup_cons_of_not_mem, h1, h2]

/-- The production aggregation of the counterexample fixture under the
    reference-only key. -/
lemma cexProd9_agg_ref_eval : aggregate_spec false cexProd9 =
    [{ referencia := "A", banho := "", qtd := 2 }] := by
  have h1 : extractRef "A - Pingente" = "A" := by decide
  simp [aggregate_spec, cexProd9, groupSum, sortLe, insertLe,
    List.dedup_cons_of_not_mem, h1]

/-- The code's merged table on the counterexample fixture. -/
lemma df_code9_eval : df_merge cexProj9 cexProd9 cexRet9 = [cexRowHard] := by
  unfold df_merge
  rw [cexProj9_eval]
  rw [show preparar_retorno_ou_producao cexProd9 =
      [{ referencia := "A", banho := "Prata", qtd := 2 }] from cexProd9_agg_eval]
  rw [show preparar_retorno_ou_producao cexRet9 = [] from rfl]
  have hmax : max (0 : ℚ) (10 - (0 + 0 + 1)) = 9 := by norm_num
  have hceil : Int.ceil ((9 : ℚ) * (13 / 10)) = 12 :=
    Int.ceil_eq_iff.mpr ⟨by norm_num, by norm_num⟩
  simp [merge_row, lookupQtd, cexRowHard, hmax, hceil]
  exact Int.ceil_eq_iff.mpr (by norm_num)

/-- The code's reconciliation on the counterexample fixture. -/
lemma reconcile_code9_eval :
    reconcile_code cexProj9 cexProd9 cexRet9 = [cexRowHard] := by
  unfold reconcile_code
  rw [df_code9_eval]
  simp [sortLe, insertLe, cexRowHard]

/-- The spec engine with margin 0 on the counterexample fixture. -/
lemma reconcile_m0_eval :
    reconcile_spec cfgM0 cexProj9 cexProd9 cexRet9 = [cexRowM0] := by
  have hd : df_merge_spec cfgM0 cexProj9 cexProd9 cexRet9 = [cexRowM0] := by
    unfold df_merge_spec
    rw [show cfgM0.key_with_banho = true from rfl]
    rw [cexProj9_eval, cexProd9_agg_eval]
    rw [show aggregate_spec true cexRet9 = [] from rfl]
    have hmax : max (0 : ℚ) (10 - (0 + 0 + 1)) = 9 := by norm_num
    have hceil : Int.ceil ((9 : ℚ) * (1 + 0)) = 9 :=
      Int.ceil_eq_iff.mpr ⟨by norm_num, by norm_num⟩
    simp [merge_row_spec, lookup_spec, cfgM0, cexRowM0, hmax, hceil]
  simp only [reconcile_spec, hd]
  simp [sortLe, insertLe, cfgM0, cexRowM0]

/-- The spec engine with stock untracked on the counterexample fixture. -/
lemma reconcile_ns_eval :
    reconcile_spec cfgNoStock cexProj9 cexProd9 cexRet9 = [cexRowNoStock] := by
  have hd : df_merge_spec cfgNoStock cexProj9 cexProd9 cexRet9 = [cexRowNoStock] := by
    unfold df_merge_spec
    rw [show cfgNoStock.key_with_banho = true from rfl]
    rw [cexProj9_eval, cexProd9_agg_eval]
    rw [show aggregate_spec true cexRet9 = [] from rfl]
    have hmax : max (0 : ℚ) (10 - (0 + 0 + 0)) = 10 := by norm_num
    have hceil : Int.ceil ((10 : ℚ) * (1 + 3 / 10)) = 13 :=
      Int.ceil_eq_iff.mpr ⟨by norm_num, by norm_num⟩
    simp [merge_row_spec, lookup_spec, cfgNoStock, cexRowNoStock, hmax, hceil]
  simp only [reconcile_spec, hd]
  simp [sortLe, insertLe, cfgNoStock, cexRowNoStock]

/-- The spec engine with the reference-only key on the counterexample
    fixture. -/
lemma reconcile_ro_eval :
    reconcile_spec cfgRefOnly cexProj9 cexProd9 cexRet9 = [cexRowRefOnly] := by
  have hd : df_merge_spec cfgRefOnly cexProj9 cexProd9 cexRet9 = [cexRowRefOnly] := by
    unfold df_merge_spec
    rw [show cfgRefOnly.key_with_banho = false from rfl]
    rw [cexProj9_eval, cexProd9_agg_ref_eval]
    rw [show aggregate_spec false cexRet9 = [] from rfl]
    have hmax : max (0 : ℚ) (10 - (2 + 0 + 1)) = 7 := by norm_num
    have hceil : Int.ceil ((7 : ℚ) * (1 + 3 / 10)) = 10 :=
      Int.ceil_eq_iff.mpr ⟨by norm_num, by norm_num⟩
    simp [merge_row_spec, lookup_spec, cfgRefOnly, cexRowRefOnly, hmax, hceil]
    norm_num [Int.ceil_eq_iff]
  simp only [reconcile_spec, hd]
  simp [sortLe, insertLe, cfgRefOnly, cexRowRefOnly]

/-- C9 counterexample: on a concrete input the code's output equals the
    parameterized engine's output only at the hard-coded configuration — with
    margin 0, or stock untracked, or a reference-only key, the outputs differ,
    so the source exposes none of these as a configuration choice. -/
theorem c9_counterexample :
    reconcile_code cexProj9 cexProd9 cexRet9 = [cexRowHard] ∧
    reconcile_code cexProj9 cexProd9 cexRet9 ≠
      reconcile_spec cfgM0 cexProj9 cexProd9 cexRet9 ∧
    reconcile_code cexProj9 cexProd9 cexRet9 ≠
      reconcile_spec cfgNoStock cexProj9 cexProd9 cexRet9 ∧
    reconcile_code cexProj9 cexProd9 cexRet9 ≠
      reconcile_spec cfgRefOnly cexProj9 cexProd9 cexRet9 := by
  rw [reconcile_code9_eval, reconcile_m0_eval, reconcile_ns_eval, reconcile_ro_eval]
  refine ⟨rfl, ?_, ?_, ?_⟩ <;> decide
